import Mathlib

/-!
# Verification of the Feishu streaming delivery controller

A shallow embedding of `src/extensions/feishu/src/streaming-controller.ts`.
Text is modelled as `List Char` (JS strings); the `0.85` thresholds are the
exact rational `17/20`, so `x / y < 0.85` becomes `20 * x < 17 * y` on the
natural-number lengths.
-/

namespace StreamingController

/-- JS `\s` / `String.prototype.trim` whitespace class (as used by the
regexes in `normalizeComparisonText` and by `text.trim()`). -/
def isJsWhitespace (c : Char) : Bool :=
  c.val = 9 || c.val = 10 || c.val = 11 || c.val = 12 || c.val = 13 ||
  c.val = 32 || c.val = 0xA0 || c.val = 0x1680 ||
  (0x2000 ≤ c.val && c.val ≤ 0x200A) ||
  c.val = 0x2028 || c.val = 0x2029 || c.val = 0x202F || c.val = 0x205F ||
  c.val = 0x3000 || c.val = 0xFEFF

/-- The markdown control characters of the character class
`[*_`~|#>\-:.()]` used by `normalizeComparisonText` and
`isShortMarkdownNoiseToken` (codes for `* _ \x60 ~ | # > - : . ( )`). -/
def isMdControlChar (c : Char) : Bool :=
  c.val = 42 || c.val = 95 || c.val = 96 || c.val = 126 || c.val = 124 ||
  c.val = 35 || c.val = 62 || c.val = 45 || c.val = 58 || c.val = 46 ||
  c.val = 40 || c.val = 41

/-- Remove the maximal suffix of characters satisfying `p`
(JS `text.replace(/[...]+$/g, "")`). -/
def dropTrailing (p : Char → Bool) (l : List Char) : List Char :=
  (l.reverse.dropWhile p).reverse

/-- JS `text.trim()`. -/
def jsTrim (l : List Char) : List Char :=
  dropTrailing isJsWhitespace (l.dropWhile isJsWhitespace)

/-- `normalizeComparisonText` (streaming-controller.ts lines 770-774):
strip trailing whitespace, then a trailing run of whitespace/markdown
control characters, then trailing whitespace again. -/
def normalizeComparisonText (l : List Char) : List Char :=
  let trimmed := dropTrailing isJsWhitespace l
  let withoutTrailingMarkdownControl :=
    dropTrailing (fun c => isJsWhitespace c || isMdControlChar c) trimmed
  dropTrailing isJsWhitespace withoutTrailingMarkdownControl

/-- `isShortMarkdownNoiseToken` (lines 776-782): the trimmed candidate is
nonempty, at most 6 characters long, and all characters are markdown
control punctuation. -/
def isShortMarkdownNoiseToken (l : List Char) : Bool :=
  let candidate := jsTrim l
  if candidate.isEmpty || candidate.length > 6 then false
  else candidate.all isMdControlChar

/-- The `while` loop of `isNonRegressiveStreamUpdate`: length of the longest
common prefix of the two character lists. -/
def commonPrefixLen : List Char → List Char → Nat
  | [], _ => 0
  | _, [] => 0
  | a :: as, b :: bs => if a = b then commonPrefixLen as bs + 1 else 0

/-- `isNonRegressiveStreamUpdate` (lines 784-819). `0.85` is `17/20`,
so `lengthRatio < 0.85` is `20 * |currentN| < 17 * |previousN|` and
`preservedPrefixRatio >= 0.85` is `20 * commonPrefixLen ≥ 17 * |previousN|`. -/
def isNonRegressiveStreamUpdate (previous current : List Char) : Bool :=
  if previous.isEmpty then true
  else if previous.isPrefixOf current then true
  else
    let previousNormalized := normalizeComparisonText previous
    let currentNormalized := normalizeComparisonText current
    if previousNormalized.isEmpty then true
    else if previousNormalized.isPrefixOf currentNormalized then true
    else if 20 * currentNormalized.length < 17 * previousNormalized.length then false
    else 20 * commonPrefixLen previousNormalized currentNormalized ≥
      17 * previousNormalized.length

/-- The Non-Regression Filter as worded by the specification: accept when
the previous text is empty, the candidate extends it verbatim, or the
normalized candidate extends the normalized previous; otherwise reject when
the normalized length ratio is below `17/20`, else accept exactly when the
preserved-prefix ratio reaches `17/20`. -/
def nonRegressionFilterSpec (previous current : List Char) : Bool :=
  if previous.isEmpty then true
  else if previous.isPrefixOf current then true
  else if (normalizeComparisonText previous).isPrefixOf
      (normalizeComparisonText current) then true
  else if 20 * (normalizeComparisonText current).length <
      17 * (normalizeComparisonText previous).length then false
  else 20 * commonPrefixLen (normalizeComparisonText previous)
      (normalizeComparisonText current) ≥
    17 * (normalizeComparisonText previous).length

theorem nil_isPrefixOf (l : List Char) : List.isPrefixOf ([] : List Char) l = true := by
  cases l <;> rfl

/-- C1: the code's Non-Regression Filter agrees with the specification's
description on every pair of strings. The code's extra early-accept for an
empty normalized previous text coincides with the normalized prefix test,
because the empty string is a prefix of everything. -/
theorem nonRegressionFilter_correct (previous current : List Char) :
    isNonRegressiveStreamUpdate previous current =
      nonRegressionFilterSpec previous current := by
  unfold isNonRegressiveStreamUpdate nonRegressionFilterSpec
  by_cases h0 : previous.isEmpty
  · simp [h0]
  · simp only [h0, Bool.false_eq_true, if_false]
    by_cases h1 : previous.isPrefixOf current
    · simp [h1]
    · simp only [h1, Bool.false_eq_true, if_false]
      by_cases h2 : (normalizeComparisonText previous).isEmpty
      · have hnil : normalizeComparisonText previous = [] := by
          simpa [List.isEmpty_iff] using h2
        simp [h2, hnil, nil_isPrefixOf]
      · simp [h2]

/-- `StreamingBackend` (line 603). -/
inductive StreamingBackend
  | none
  | cardkit
  | raw
  | stopped
deriving DecidableEq, Repr

/-- `streamRenderMode` parameter values. -/
inductive RenderMode
  | card
  | raw
deriving DecidableEq, Repr

/-- The mutable session state captured by the closure of
`createFeishuStreamingController` (lines 666-689), restricted to the
fields read or written by the modelled operations. The immutable
`trueStreamingEnabled` parameter and the fixed `streamRenderMode` are kept
in the record; log-only fields (`streamNextCardCreateCause`) and the
promise handles are omitted. `streamTimer` is `true` when a throttle timer
is pending. -/
structure StreamState where
  trueStreamingEnabled : Bool
  streamRenderMode : RenderMode
  streamBackend : StreamingBackend
  streamCardKitId : Option (List Char)
  streamMessageId : Option (List Char)
  streamSequence : Nat
  streamLastSentText : List Char
  streamPendingText : List Char
  streamInFlight : Bool
  streamTimer : Bool
  streamPartialCount : Nat
  streamFlushCount : Nat
  streamUpdateCount : Nat
  streamEverUpdated : Bool
  streamClosing : Bool
  streamClosed : Bool
  lastPartialQueued : List Char
  streamLastAcceptedPartial : List Char
  streamSegmentRotationRequested : Bool
  streamRotationNextText : Option (List Char)
  streamSegmentAccumulatedText : List Char
  streamDivergenceStreak : Nat
  streamFinalizing : Bool
deriving DecidableEq, Repr

/-- `Boolean(streamMessageId || streamCardKitId)` (line 1188). -/
def hasActiveSegment (s : StreamState) : Bool :=
  s.streamMessageId.isSome || s.streamCardKitId.isSome

/-- `queuePartialReply` (lines 1167-1229) as a state transition. The
`setTimeout` side effect is modelled by `streamTimer := true`; everything
else is a field-for-field transcription of the source. -/
def queuePartialReply (s : StreamState) (text : List Char) : StreamState :=
  if !s.trueStreamingEnabled || text.isEmpty then s
  else if text = s.lastPartialQueued then s
  else if s.streamFinalizing || s.streamBackend = .stopped ||
      s.streamClosing || s.streamClosed then
    { s with lastPartialQueued := text }
  else if isShortMarkdownNoiseToken text then
    { s with lastPartialQueued := text }
  else if !isNonRegressiveStreamUpdate s.streamLastAcceptedPartial text then
    let normalizedLen := (normalizeComparisonText text).length
    let streak := s.streamDivergenceStreak + 1
    let requested := s.streamSegmentRotationRequested ||
      (hasActiveSegment s && decide (streak ≥ 2) && decide (normalizedLen ≥ 32))
    { s with
      streamDivergenceStreak := streak
      streamRotationNextText := some text
      streamSegmentRotationRequested := requested
      lastPartialQueued := text
      streamTimer := s.streamTimer || requested }
  else
    { s with
      streamLastAcceptedPartial := text
      streamSegmentAccumulatedText := text
      streamDivergenceStreak := 0
      lastPartialQueued := text
      streamPartialCount := s.streamPartialCount + 1
      streamPendingText := text
      streamTimer := true }

/-- The guard conditions of `queuePartialReply` that must pass before the
noise check and the Non-Regression Filter are consulted (lines 1168-1177). -/
def partialGuardsPass (s : StreamState) (text : List Char) : Bool :=
  s.trueStreamingEnabled && !text.isEmpty && !(text = s.lastPartialQueued) &&
  !s.streamFinalizing && !(s.streamBackend = .stopped) &&
  !s.streamClosing && !s.streamClosed

/-- A call of `queuePartialReply` that takes the divergence branch
(line 1187): guards pass, the text is not a noise token, and the
Non-Regression Filter rejects it against the last accepted partial. -/
def divergentCall (s : StreamState) (text : List Char) : Bool :=
  partialGuardsPass s text && !isShortMarkdownNoiseToken text &&
  !isNonRegressiveStreamUpdate s.streamLastAcceptedPartial text

/-- A call of `queuePartialReply` that accepts the snapshot
(lines 1218-1228): guards pass, the text is not a noise token, and the
Non-Regression Filter accepts it against the last accepted partial. -/
def acceptedCall (s : StreamState) (text : List Char) : Bool :=
  partialGuardsPass s text && !isShortMarkdownNoiseToken text &&
  isNonRegressiveStreamUpdate s.streamLastAcceptedPartial text

/-- C2: with an active entity, a single divergent snapshot (streak
previously 0) never arms rotation; the rotation request becomes set exactly
when it was already set or the call is divergent with the new streak ≥ 2
and normalized candidate length ≥ 32; and a candidate of normalized length
< 32 never changes the arming, whatever the streak. -/
theorem rotation_arming_characterization (s : StreamState) (t : List Char)
    (hactive : hasActiveSegment s = true) :
    (s.streamDivergenceStreak = 0 → s.streamSegmentRotationRequested = false →
      (queuePartialReply s t).streamSegmentRotationRequested = false) ∧
    ((queuePartialReply s t).streamSegmentRotationRequested = true ↔
      (s.streamSegmentRotationRequested = true ∨
        (divergentCall s t = true ∧ 2 ≤ s.streamDivergenceStreak + 1 ∧
          32 ≤ (normalizeComparisonText t).length))) ∧
    ((normalizeComparisonText t).length < 32 →
      (queuePartialReply s t).streamSegmentRotationRequested =
        s.streamSegmentRotationRequested) := by
  unfold queuePartialReply divergentCall partialGuardsPass
  by_cases hreq : s.streamSegmentRotationRequested <;>
    split_ifs with h1 h2 h3 h4 h5 <;>
      simp_all <;> first | omega | (intros; simp_all)

/-- A concrete session state used by witness instantiations: card mode,
live cardkit entity, otherwise fresh. -/
def testState : StreamState where
  trueStreamingEnabled := true
  streamRenderMode := .card
  streamBackend := .cardkit
  streamCardKitId := some "c1".toList
  streamMessageId := some "m1".toList
  streamSequence := 3
  streamLastSentText := []
  streamPendingText := []
  streamInFlight := false
  streamTimer := false
  streamPartialCount := 0
  streamFlushCount := 0
  streamUpdateCount := 0
  streamEverUpdated := false
  streamClosing := false
  streamClosed := false
  lastPartialQueued := []
  streamLastAcceptedPartial := []
  streamSegmentRotationRequested := false
  streamRotationNextText := none
  streamSegmentAccumulatedText := []
  streamDivergenceStreak := 0
  streamFinalizing := false

/-- Witness for C2: from a state with one prior divergence, a second
divergent snapshot of normalized length ≥ 32 arms rotation. -/
theorem rotation_arming_characterization_witness :
    (queuePartialReply
      { testState with
        streamDivergenceStreak := 1
        streamLastAcceptedPartial := "Hello world, this is the first segment".toList }
      "Xy another completely different reply 42".toList).streamSegmentRotationRequested
      = true :=
  ((rotation_arming_characterization
      { testState with
        streamDivergenceStreak := 1
        streamLastAcceptedPartial := "Hello world, this is the first segment".toList }
      "Xy another completely different reply 42".toList
      (by decide)).2.1).mpr
    (Or.inr ⟨by decide, by decide, by decide⟩)

/-- C3 as stated is false: an accepted snapshot resets the divergence
streak but does not clear the rotation arming. Concretely, from an armed
state, accepting the continuation `"Hello world"` of `"Hello"` leaves
`streamSegmentRotationRequested` set. -/
theorem accepted_reset_counterexample :
    acceptedCall
        { testState with
          streamSegmentRotationRequested := true
          streamDivergenceStreak := 2
          streamLastAcceptedPartial := "Hello".toList
          streamRotationNextText := some "Other".toList }
        "Hello world".toList = true ∧
      (queuePartialReply
        { testState with
          streamSegmentRotationRequested := true
          streamDivergenceStreak := 2
          streamLastAcceptedPartial := "Hello".toList
          streamRotationNextText := some "Other".toList }
        "Hello world".toList).streamDivergenceStreak = 0 ∧
      (queuePartialReply
        { testState with
          streamSegmentRotationRequested := true
          streamDivergenceStreak := 2
          streamLastAcceptedPartial := "Hello".toList
          streamRotationNextText := some "Other".toList }
        "Hello world".toList).streamSegmentRotationRequested = true := by
  decide

/-- C3 amended: an accepted snapshot resets `streamDivergenceStreak` to 0,
queues the text for delivery, and leaves the rotation arming exactly as it
was — a pending rotation request is not cleared. -/
theorem accepted_resets_streak_keeps_arming (s : StreamState) (t : List Char)
    (haccept : acceptedCall s t = true) :
    (queuePartialReply s t).streamDivergenceStreak = 0 ∧
    (queuePartialReply s t).streamSegmentRotationRequested =
      s.streamSegmentRotationRequested ∧
    (queuePartialReply s t).streamPendingText = t ∧
    (queuePartialReply s t).streamLastAcceptedPartial = t := by
  unfold acceptedCall partialGuardsPass at haccept
  unfold queuePartialReply
  split_ifs <;> simp_all

/-- Witness for the amended C3. -/
theorem accepted_resets_streak_keeps_arming_witness :
    (queuePartialReply
      { testState with
        streamSegmentRotationRequested := true
        streamLastAcceptedPartial := "Hello".toList }
      "Hello there".toList).streamDivergenceStreak = 0 ∧
    (queuePartialReply
      { testState with
        streamSegmentRotationRequested := true
        streamLastAcceptedPartial := "Hello".toList }
      "Hello there".toList).streamSegmentRotationRequested = true := by
  refine ⟨?_, ?_⟩
  · exact (accepted_resets_streak_keeps_arming
      { testState with
        streamSegmentRotationRequested := true
        streamLastAcceptedPartial := "Hello".toList }
      "Hello there".toList (by decide)).1
  · exact (accepted_resets_streak_keeps_arming
      { testState with
        streamSegmentRotationRequested := true
        streamLastAcceptedPartial := "Hello".toList }
      "Hello there".toList (by decide)).2.1

/-- C5: a short markdown noise token changes at most the last-offered-text
bookkeeping — the pending text, divergence streak, throttle timer and every
other session field are untouched, so the token is never queued for
delivery and never reaches the transport. -/
theorem noise_token_frame (s : StreamState) (t : List Char)
    (hnoise : isShortMarkdownNoiseToken t = true) :
    queuePartialReply s t =
      { s with lastPartialQueued := (queuePartialReply s t).lastPartialQueued } ∧
    ((queuePartialReply s t).lastPartialQueued = t ∨
      (queuePartialReply s t).lastPartialQueued = s.lastPartialQueued) ∧
    (queuePartialReply s t).streamPendingText = s.streamPendingText ∧
    (queuePartialReply s t).streamDivergenceStreak = s.streamDivergenceStreak ∧
    (queuePartialReply s t).streamTimer = s.streamTimer := by
  unfold queuePartialReply
  split_ifs <;> simp_all <;> (cases s; simp_all)

/-- Witness for C5 with the noise token `"**"`. -/
theorem noise_token_frame_witness :
    queuePartialReply testState "**".toList =
      { testState with
        lastPartialQueued := (queuePartialReply testState "**".toList).lastPartialQueued } ∧
    ((queuePartialReply testState "**".toList).lastPartialQueued = "**".toList ∨
      (queuePartialReply testState "**".toList).lastPartialQueued =
        testState.lastPartialQueued) ∧
    (queuePartialReply testState "**".toList).streamPendingText =
      testState.streamPendingText ∧
    (queuePartialReply testState "**".toList).streamDivergenceStreak =
      testState.streamDivergenceStreak ∧
    (queuePartialReply testState "**".toList).streamTimer = testState.streamTimer :=
  noise_token_frame testState "**".toList (by decide)

theorem queuePartialReply_duplicate (s : StreamState) (t : List Char)
    (h : s.lastPartialQueued = t) : queuePartialReply s t = s := by
  unfold queuePartialReply
  split_ifs <;> simp_all

theorem queuePartialReply_lastQueued (s : StreamState) (t : List Char) :
    queuePartialReply s t = s ∨ (queuePartialReply s t).lastPartialQueued = t := by
  unfold queuePartialReply
  split_ifs <;> simp_all

/-- C10: offering the text last offered is a complete no-op, repeating any
`queuePartialReply` call is idempotent, and from a quiescent state two
offers of the same divergent text leave the streak at most 1 and never arm
rotation. -/
theorem duplicate_offer_noop (s : StreamState) (t : List Char) :
    (s.lastPartialQueued = t → queuePartialReply s t = s) ∧
    queuePartialReply (queuePartialReply s t) t = queuePartialReply s t ∧
    (s.streamDivergenceStreak = 0 → s.streamSegmentRotationRequested = false →
      (queuePartialReply (queuePartialReply s t) t).streamDivergenceStreak ≤ 1 ∧
      (queuePartialReply (queuePartialReply s t) t).streamSegmentRotationRequested
        = false) := by
  have hidem : queuePartialReply (queuePartialReply s t) t = queuePartialReply s t := by
    rcases queuePartialReply_lastQueued s t with h | h
    · rw [h, h]
    · exact queuePartialReply_duplicate _ _ h
  refine ⟨fun h => queuePartialReply_duplicate s t h, hidem, fun h0 hreq => ?_⟩
  rw [hidem]
  unfold queuePartialReply
  split_ifs <;> simp_all

/-- Witness for C10: a divergent snapshot offered twice from a quiescent
armed-free state leaves the streak at 1 and rotation unarmed. -/
theorem duplicate_offer_noop_witness :
    (queuePartialReply
        { testState with streamLastAcceptedPartial := "Hello world of text".toList }
        "Hi".toList = { testState with streamLastAcceptedPartial := "Hello world of text".toList } →
      True) ∧
    (queuePartialReply
      (queuePartialReply
        { testState with streamLastAcceptedPartial := "Hello world of text".toList }
        "Zz".toList)
      "Zz".toList).streamDivergenceStreak ≤ 1 ∧
    (queuePartialReply
      (queuePartialReply
        { testState with streamLastAcceptedPartial := "Hello world of text".toList }
        "Zz".toList)
      "Zz".toList).streamSegmentRotationRequested = false :=
  ⟨fun _ => trivial,
    (duplicate_offer_noop
      { testState with streamLastAcceptedPartial := "Hello world of text".toList }
      "Zz".toList).2.2 (by decide) (by decide)⟩

/-- Classification of one attempt of a CardKit mutation, as performed by
the retry loop of `runCardKitMutation` (lines 725-755): the call either
returns (`success`), or throws an error that is a sequence-compare
failure, otherwise transient-retryable, otherwise permanent. -/
inductive MutationOutcome
  | success
  | seqCompareFailed
  | transient
  | permanent
deriving DecidableEq, Repr

/-- One attempt as observed from outside: the sequence counter before the
attempt, the sequence number supplied to the mutation, and its outcome. -/
structure AttemptRecord where
  preSeq : Nat
  issued : Nat
  outcome : MutationOutcome
deriving DecidableEq, Repr

/-- The retry loop of `runCardKitMutation` (lines 725-755). `f n` is the
outcome of attempt number `n`; `remaining` counts the attempts still
allowed (`maxRetries - attempt + 1`), so `remaining = 1` is the last
attempt (`attempt >= maxRetries` in the source). Returns the list of
attempts made, the final `streamSequence`, and whether the mutation
succeeded. On a retryable error the loop sleeps and retries; on a
sequence-compare failure it first fast-forwards the counter to the value
just attempted; a non-retryable error or the last attempt propagates the
error without touching the counter. -/
def runCardKitMutationLoop (f : Nat → MutationOutcome) :
    Nat → Nat → Nat → List AttemptRecord × Nat × Bool
  | _, 0, seq => ([], seq, false)
  | attempt, remaining + 1, seq =>
    let issued := seq + 1
    match f attempt with
    | .success => ([⟨seq, issued, .success⟩], issued, true)
    | outcome =>
      if outcome = .permanent || remaining = 0 then
        ([⟨seq, issued, outcome⟩], seq, false)
      else
        let seqNext := if outcome = .seqCompareFailed then issued else seq
        let rest := runCardKitMutationLoop f (attempt + 1) remaining seqNext
        (⟨seq, issued, outcome⟩ :: rest.1, rest.2.1, rest.2.2)

/-- The sequence-counter discipline of the claim, as a recursive check over
the attempt trace together with the final counter and result: each attempt
is issued at its pre-counter plus one; after a successful attempt the
counter is committed to the issued value; after a sequence-compare failure
that is followed by another attempt the counter is fast-forwarded to the
issued value; any other failure (including a final sequence-compare
failure, which propagates) leaves the counter at the pre-counter value. -/
def seqDiscipline (seq : Nat) : List AttemptRecord → Nat → Bool → Bool
  | [], finalSeq, ok => decide (finalSeq = seq) && !ok
  | [r], finalSeq, ok =>
    decide (r.preSeq = seq) && decide (r.issued = seq + 1) &&
      (if r.outcome = .success then decide (finalSeq = r.issued) && ok
       else decide (finalSeq = r.preSeq) && !ok)
  | r :: r' :: rest, finalSeq, ok =>
    decide (r.preSeq = seq) && decide (r.issued = seq + 1) &&
      !(r.outcome = .success) && !(r.outcome = .permanent) &&
      seqDiscipline (if r.outcome = .seqCompareFailed then r.issued else r.preSeq)
        (r' :: rest) finalSeq ok

/-- C4: for every mutation behavior, retry budget and starting counter, the
retry loop of `runCardKitMutation` (entered at attempt 1 as in the source)
issues every attempt at the local sequence counter plus one and moves the
counter only by the two allowed rules — commit on success, fast-forward on
a retried sequence-compare failure — leaving it unchanged on transient or
permanent failure. -/
theorem runCardKitMutationLoop_ne_nil (f : Nat → MutationOutcome)
    (attempt n seq : Nat) (h : n ≠ 0) :
    (runCardKitMutationLoop f attempt n seq).1 ≠ [] := by
  cases n with
  | zero => exact absurd rfl h
  | succ m =>
    simp only [runCardKitMutationLoop]
    rcases f attempt with _ | _ | _ | _ <;> simp <;> split_ifs <;> simp

theorem cardKitMutation_sequence_discipline (f : Nat → MutationOutcome)
    (maxRetries startSeq : Nat) :
    seqDiscipline startSeq
      (runCardKitMutationLoop f 1 maxRetries startSeq).1
      (runCardKitMutationLoop f 1 maxRetries startSeq).2.1
      (runCardKitMutationLoop f 1 maxRetries startSeq).2.2 = true := by
  suffices h : ∀ remaining attempt seq,
      seqDiscipline seq
        (runCardKitMutationLoop f attempt remaining seq).1
        (runCardKitMutationLoop f attempt remaining seq).2.1
        (runCardKitMutationLoop f attempt remaining seq).2.2 = true from
    h maxRetries 1 startSeq
  intro remaining
  induction remaining with
  | zero => intro attempt seq; simp [runCardKitMutationLoop, seqDiscipline]
  | succ n ih =>
    intro attempt seq
    simp only [runCardKitMutationLoop]
    rcases hout : f attempt with _ | _ | _ | _
    · simp [seqDiscipline]
    · by_cases hn : n = 0
      · subst hn; simp [seqDiscipline]
      · have hne := runCardKitMutationLoop_ne_nil f (attempt + 1) n (seq + 1) hn
        rcases hrest : (runCardKitMutationLoop f (attempt + 1) n (seq + 1)).1 with
          _ | ⟨r', tail⟩
        · exact absurd hrest hne
        · have hih := ih (attempt + 1) (seq + 1)
          rw [hrest] at hih
          simp [seqDiscipline, hn, hrest, hih]
    · by_cases hn : n = 0
      · subst hn; simp [seqDiscipline]
      · have hne := runCardKitMutationLoop_ne_nil f (attempt + 1) n seq hn
        rcases hrest : (runCardKitMutationLoop f (attempt + 1) n seq).1 with
          _ | ⟨r', tail⟩
        · exact absurd hrest hne
        · have hih := ih (attempt + 1) seq
          rw [hrest] at hih
          simp [seqDiscipline, hn, hrest, hih]
    · simp [seqDiscipline]

/-- The transport operations issued by `sendOrUpdateStreamMessage` and the
rotation path of `flushStream`. The create-entity/bind pair of lines
867-879 is one logical operation (the source wraps both in one `try`).
Texts are recorded before mention decoration. -/
inductive TransportCall
  | elementUpdate (text : List Char)
  | createEntity (text : List Char)
  | rawEdit (text : List Char)
  | rawSend (text : List Char)
  | closeEntity
deriving DecidableEq, Repr

/-- A transport call together with whether it succeeded. -/
structure TransportEvent where
  call : TransportCall
  ok : Bool
deriving DecidableEq, Repr

/-- The text a transport event carried, if any. -/
def TransportCall.text : TransportCall → Option (List Char)
  | .elementUpdate t => some t
  | .createEntity t => some t
  | .rawEdit t => some t
  | .rawSend t => some t
  | .closeEntity => none

/-- Oracle fixing the outcome of each transport primitive that one
`sendOrUpdateStreamMessage` call can reach. A failed element update or
edit stands for the whole retry budget being exhausted (the thrown error
reaches the outer catch); `createResult = none` is a failed
create-or-bind. -/
structure TransportOracle where
  updateOk : Bool
  createResult : Option (List Char × List Char)
  editOk : Bool
  sendResult : Option (List Char)
deriving DecidableEq, Repr

/-- `sendOrUpdateStreamMessage` (lines 851-929) over the oracle: returns
the new state, the boolean result, and the transport events issued. The
sequence bookkeeping of a successful queued update is abbreviated to one
increment (its retry internals are modelled by `runCardKitMutationLoop`);
no claim proved over this model reads `streamSequence`. -/
def sendOrUpdateStreamMessage (orc : TransportOracle) (s : StreamState)
    (text : List Char) : StreamState × Bool × List TransportEvent :=
  if text.isEmpty || text = s.streamLastSentText then (s, true, [])
  else
    match s.streamRenderMode with
    | .card =>
      if s.streamClosing || s.streamClosed then (s, true, [])
      else if s.streamBackend = .cardkit && s.streamCardKitId.isSome then
        if orc.updateOk then
          ({ s with
              streamSequence := s.streamSequence + 1
              streamUpdateCount := s.streamUpdateCount + 1
              streamEverUpdated := true
              streamLastSentText := text }, true,
            [⟨.elementUpdate text, true⟩])
        else
          ({ s with streamBackend := .stopped }, false,
            [⟨.elementUpdate text, false⟩])
      else if s.streamBackend = .none then
        match orc.createResult with
        | some (cardId, messageId) =>
          ({ s with
              streamCardKitId := some cardId
              streamMessageId := some messageId
              streamBackend := .cardkit
              streamSequence := 0
              streamLastSentText := text }, true,
            [⟨.createEntity text, true⟩])
        | none =>
          ({ s with
              streamBackend := .stopped
              streamLastSentText := text }, true,
            [⟨.createEntity text, false⟩])
      else ({ s with streamLastSentText := text }, true, [])
    | .raw =>
      if s.streamBackend = .raw && s.streamMessageId.isSome then
        if orc.editOk then
          ({ s with
              streamUpdateCount := s.streamUpdateCount + 1
              streamEverUpdated := true
              streamLastSentText := text }, true,
            [⟨.rawEdit text, true⟩])
        else
          ({ s with streamBackend := .stopped }, false,
            [⟨.rawEdit text, false⟩])
      else if s.streamBackend = .none then
        match orc.sendResult with
        | some messageId =>
          ({ s with
              streamMessageId := some messageId
              streamBackend := .raw
              streamLastSentText := text }, true,
            [⟨.rawSend text, true⟩])
        | none =>
          ({ s with streamBackend := .stopped }, false,
            [⟨.rawSend text, false⟩])
      else ({ s with streamLastSentText := text }, true, [])

/-- C8 as stated is false: in card mode with no backend yet, a failed
entity creation is swallowed (lines 889-895) and the function still falls
through to `streamLastSentText = text` (line 920) — the field is updated
although the only transport call made failed. -/
theorem lastSentText_success_counterexample :
    (sendOrUpdateStreamMessage ⟨true, none, true, none⟩
        { testState with
          streamBackend := .none
          streamCardKitId := none
          streamMessageId := none }
        "Hi".toList).1.streamLastSentText = "Hi".toList ∧
      ¬(testState.streamLastSentText = "Hi".toList) ∧
      (sendOrUpdateStreamMessage ⟨true, none, true, none⟩
        { testState with
          streamBackend := .none
          streamCardKitId := none
          streamMessageId := none }
        "Hi".toList).2.2.all (fun ev => !ev.ok) = true ∧
      ¬((sendOrUpdateStreamMessage ⟨true, none, true, none⟩
        { testState with
          streamBackend := .none
          streamCardKitId := none
          streamMessageId := none }
        "Hi".toList).2.2 = []) := by
  decide

/-- C8 amended: `streamLastSentText` is assigned only the argument text and
only in executions that report success — a failing execution leaves it
unchanged. The assignment follows a successful transport call for that
text, except in two paths of the source: the card-mode creation-failure
path (the error is swallowed and the text is still recorded) and the
fall-through paths in which no transport branch applies (stopped or
mismatched backend), which record the text with no call at all. -/
theorem lastSentText_update_discipline (orc : TransportOracle)
    (s : StreamState) (t : List Char) :
    ((sendOrUpdateStreamMessage orc s t).2.1 = false →
      (sendOrUpdateStreamMessage orc s t).1.streamLastSentText =
        s.streamLastSentText) ∧
    ((sendOrUpdateStreamMessage orc s t).1.streamLastSentText ≠
        s.streamLastSentText →
      (sendOrUpdateStreamMessage orc s t).1.streamLastSentText = t ∧
      (sendOrUpdateStreamMessage orc s t).2.1 = true ∧
      ((sendOrUpdateStreamMessage orc s t).2.2.any
          (fun ev => ev.ok && (ev.call.text == some t)) = true ∨
        (sendOrUpdateStreamMessage orc s t).2.2 =
          [⟨.createEntity t, false⟩] ∨
        (sendOrUpdateStreamMessage orc s t).2.2 = [])) := by
  unfold sendOrUpdateStreamMessage
  rcases hrm : s.streamRenderMode <;> simp only [hrm] <;> split_ifs <;>
    rcases hcr : orc.createResult with _ | ⟨cid, mid⟩ <;>
      rcases hsr : orc.sendResult with _ | mid' <;> simp_all [TransportCall.text]

/-- Witness for the amended C8: a successful raw-mode edit records the
text, preceded by a successful transport call carrying it. -/
theorem lastSentText_update_discipline_witness :
    (sendOrUpdateStreamMessage ⟨true, none, true, none⟩
      { testState with
        streamRenderMode := .raw
        streamBackend := .raw
        streamCardKitId := none }
      "Hello".toList).1.streamLastSentText = "Hello".toList ∧
    (sendOrUpdateStreamMessage ⟨true, none, true, none⟩
      { testState with
        streamRenderMode := .raw
        streamBackend := .raw
        streamCardKitId := none }
      "Hello".toList).2.1 = true ∧
    ((sendOrUpdateStreamMessage ⟨true, none, true, none⟩
        { testState with
          streamRenderMode := .raw
          streamBackend := .raw
          streamCardKitId := none }
        "Hello".toList).2.2.any
        (fun ev => ev.ok && (ev.call.text == some "Hello".toList)) = true ∨
      (sendOrUpdateStreamMessage ⟨true, none, true, none⟩
        { testState with
          streamRenderMode := .raw
          streamBackend := .raw
          streamCardKitId := none }
        "Hello".toList).2.2 = [⟨.createEntity "Hello".toList, false⟩] ∨
      (sendOrUpdateStreamMessage ⟨true, none, true, none⟩
        { testState with
          streamRenderMode := .raw
          streamBackend := .raw
          streamCardKitId := none }
        "Hello".toList).2.2 = []) :=
  (lastSentText_update_discipline ⟨true, none, true, none⟩
    { testState with
      streamRenderMode := .raw
      streamBackend := .raw
      streamCardKitId := none }
    "Hello".toList).2 (by decide)

/-- Events observable from one `flushStream` call: transport calls and the
`onSegmentFinalized` callback. -/
inductive StreamEvent
  | transport (ev : TransportEvent)
  | segmentFinalized (messageId : List Char) (content : List Char)
deriving DecidableEq, Repr

/-- Oracle for one `flushStream` call: outcomes for the rotation's
last update to the outgoing entity, for the close of the outgoing entity,
and for the delivery of the current text. -/
structure FlushOracle where
  preUpdate : TransportOracle
  closeOk : Bool
  deliver : TransportOracle
deriving DecidableEq, Repr

/-- The `(messageId, content)` payloads of the `segmentFinalized` events in
an event list. -/
def segmentFinalizedEvents : List StreamEvent → List (List Char × List Char)
  | [] => []
  | .transport _ :: rest => segmentFinalizedEvents rest
  | .segmentFinalized m c :: rest => (m, c) :: segmentFinalizedEvents rest

/-- The segment-rotation block of `flushStream` (lines 949-1017): one last
update of the outgoing entity if its accumulated text was never sent,
best-effort close of the outgoing entity, the segment-finalized
notification, reset of the per-entity fields, and selection of the text
the flush will deliver to the fresh segment (the rotation's carried next
text, or the pending text of the flush). Returns the new state, the text
to deliver, and the emitted events. -/
def rotateSegment (orc : FlushOracle) (s : StreamState)
    (pendingText : List Char) : StreamState × List Char × List StreamEvent :=
  let nextSegmentText := s.streamRotationNextText
  let previousSegmentMessageId := s.streamMessageId
  let previousSegmentText := s.streamSegmentAccumulatedText
  let s3 := { s with
    streamSegmentRotationRequested := false
    streamDivergenceStreak := 0
    streamRotationNextText := none }
  let afterUpdate :=
    if !previousSegmentText.isEmpty &&
        !(previousSegmentText = s3.streamLastSentText) then
      let r := sendOrUpdateStreamMessage orc.preUpdate s3 previousSegmentText
      (r.1, r.2.2.map .transport)
    else (s3, ([] : List StreamEvent))
  let s4 := afterUpdate.1
  let afterClose :=
    if s4.streamRenderMode = .card && s4.streamBackend = .cardkit &&
        s4.streamCardKitId.isSome then
      if orc.closeOk then
        ({ s4 with
            streamClosed := true
            streamSequence := s4.streamSequence + 1 },
          [StreamEvent.transport ⟨.closeEntity, true⟩])
      else (s4, [StreamEvent.transport ⟨.closeEntity, false⟩])
    else (s4, ([] : List StreamEvent))
  let s5 := afterClose.1
  let finalizedEvents :=
    match previousSegmentMessageId with
    | some m =>
      if !(jsTrim previousSegmentText).isEmpty then
        [StreamEvent.segmentFinalized m previousSegmentText]
      else []
    | none => []
  let s6 := { s5 with
    streamBackend := .none
    streamCardKitId := none
    streamMessageId := none
    streamSequence := 0
    streamLastSentText := []
    streamClosing := false
    streamClosed := false }
  let afterNext :=
    match nextSegmentText with
    | some nt =>
      if !nt.isEmpty then
        ({ s6 with
            streamLastAcceptedPartial := nt
            streamSegmentAccumulatedText := nt }, nt)
      else
        ({ s6 with
            streamLastAcceptedPartial := []
            streamSegmentAccumulatedText := [] }, pendingText)
    | none =>
      ({ s6 with
          streamLastAcceptedPartial := []
          streamSegmentAccumulatedText := [] }, pendingText)
  (afterNext.1, afterNext.2,
    afterUpdate.2 ++ afterClose.2 ++ finalizedEvents)

/-- `flushStream` (lines 931-1029) over the oracle. The timer clear is
`streamTimer := false`; `streamInFlight` toggling has no net effect in one
atomic call and the finally-block does not re-arm the timer because the
pending text and the rotation request are consumed within the call. The
close of the outgoing entity is a queued mutation whose failure is caught
(non-fatal); as in `sendOrUpdateStreamMessage`, its retry internals are
abbreviated to one outcome. -/
def flushStream (orc : FlushOracle) (s : StreamState) :
    StreamState × List StreamEvent :=
  let s0 := { s with streamTimer := false }
  if s0.streamInFlight then (s0, [])
  else
    let text := s0.streamPendingText
    let s1 := { s0 with streamPendingText := [] }
    if text.isEmpty && !s1.streamSegmentRotationRequested then (s1, [])
    else
      let s2 := { s1 with streamFlushCount := s1.streamFlushCount + 1 }
      if s2.streamSegmentRotationRequested then
        let rot := rotateSegment orc s2 text
        let afterDeliver :=
          if !rot.2.1.isEmpty then
            let r := sendOrUpdateStreamMessage orc.deliver rot.1 rot.2.1
            (r.1, r.2.2.map StreamEvent.transport)
          else (rot.1, ([] : List StreamEvent))
        (afterDeliver.1, rot.2.2 ++ afterDeliver.2)
      else
        let afterDeliver :=
          if !text.isEmpty then
            let r := sendOrUpdateStreamMessage orc.deliver s2 text
            (r.1, r.2.2.map StreamEvent.transport)
          else (s2, ([] : List StreamEvent))
        (afterDeliver.1, afterDeliver.2)

theorem segmentFinalizedEvents_append (a b : List StreamEvent) :
    segmentFinalizedEvents (a ++ b) =
      segmentFinalizedEvents a ++ segmentFinalizedEvents b := by
  induction a with
  | nil => rfl
  | cons hd tl ih => cases hd <;> simp [segmentFinalizedEvents, ih]

theorem segmentFinalizedEvents_map_transport (l : List TransportEvent) :
    segmentFinalizedEvents (l.map .transport) = [] := by
  induction l with
  | nil => rfl
  | cons hd tl ih => simp [segmentFinalizedEvents, ih]

/-- The rotation block emits a segment-finalized payload exactly when the
state entering the rotation carries a wrapping message id and a non-blank
accumulated segment text. -/
theorem rotateSegment_emission (orc : FlushOracle) (s : StreamState)
    (pendingText : List Char) :
    segmentFinalizedEvents (rotateSegment orc s pendingText).2.2 =
      match s.streamMessageId with
      | some m =>
        if !(jsTrim s.streamSegmentAccumulatedText).isEmpty then
          [(m, s.streamSegmentAccumulatedText)]
        else []
      | none => [] := by
  unfold rotateSegment
  rcases hmsg : s.streamMessageId with _ | m <;>
    simp_all [segmentFinalizedEvents_append,
      segmentFinalizedEvents_map_transport, segmentFinalizedEvents] <;>
    split_ifs <;>
    simp_all [segmentFinalizedEvents_append,
      segmentFinalizedEvents_map_transport, segmentFinalizedEvents]

/-- C7 as stated is false: with a live entity that never received a real
content update (`streamEverUpdated = false`), a rotation whose last update
to the outgoing entity fails still emits the segment-finalized
notification — no transport call for the segment ever succeeded, yet the
notification fires. The source condition (lines 988-997) is
`previousSegmentMessageId && previousSegmentText.trim()`, not the
ever-updated flag. -/
theorem segmentFinalized_counterexample :
    ({ testState with
        streamSegmentRotationRequested := true
        streamRotationNextText := some "Next segment text".toList
        streamSegmentAccumulatedText := "Hello world segment".toList
      } : StreamState).streamEverUpdated = false ∧
    (flushStream ⟨⟨false, none, true, none⟩, true, ⟨true, none, true, none⟩⟩
      { testState with
        streamSegmentRotationRequested := true
        streamRotationNextText := some "Next segment text".toList
        streamSegmentAccumulatedText := "Hello world segment".toList
      }).1.streamEverUpdated = false ∧
    segmentFinalizedEvents
      (flushStream ⟨⟨false, none, true, none⟩, true, ⟨true, none, true, none⟩⟩
        { testState with
          streamSegmentRotationRequested := true
          streamRotationNextText := some "Next segment text".toList
          streamSegmentAccumulatedText := "Hello world segment".toList
        }).2 = [("m1".toList, "Hello world segment".toList)] ∧
    (flushStream ⟨⟨false, none, true, none⟩, true, ⟨true, none, true, none⟩⟩
      { testState with
        streamSegmentRotationRequested := true
        streamRotationNextText := some "Next segment text".toList
        streamSegmentAccumulatedText := "Hello world segment".toList
      }).2.all
      (fun ev => match ev with
        | .transport tev => !tev.ok
        | .segmentFinalized _ _ => true) = true := by
  decide

/-- C7 amended: during a rotation, the segment-finalized notification is
emitted if and only if the outgoing segment has a wrapping message id and
its accumulated text is non-blank after trimming; it carries that message
id and that accumulated text. -/
theorem segmentFinalized_emission (orc : FlushOracle) (s : StreamState)
    (hreq : s.streamSegmentRotationRequested = true)
    (hflight : s.streamInFlight = false) :
    segmentFinalizedEvents (flushStream orc s).2 =
      match s.streamMessageId with
      | some m =>
        if !(jsTrim s.streamSegmentAccumulatedText).isEmpty then
          [(m, s.streamSegmentAccumulatedText)]
        else []
      | none => [] := by
  unfold flushStream
  split_ifs <;>
    simp_all [rotateSegment_emission, segmentFinalizedEvents_append,
      segmentFinalizedEvents_map_transport, segmentFinalizedEvents] <;>
    split_ifs <;>
    simp_all [segmentFinalizedEvents_append,
      segmentFinalizedEvents_map_transport, segmentFinalizedEvents]

/-- Witness for the amended C7: a rotation over a live entity with
non-blank accumulated text emits exactly one notification with that
message id and text. -/
theorem segmentFinalized_emission_witness :
    segmentFinalizedEvents
      (flushStream ⟨⟨true, none, true, none⟩, true, ⟨true, none, true, none⟩⟩
        { testState with
          streamSegmentRotationRequested := true
          streamRotationNextText := some "Next segment text".toList
          streamSegmentAccumulatedText := "Hello world segment".toList
        }).2 =
      (match ({ testState with
          streamSegmentRotationRequested := true
          streamRotationNextText := some "Next segment text".toList
          streamSegmentAccumulatedText := "Hello world segment".toList
        } : StreamState).streamMessageId with
       | some m =>
         if !(jsTrim ({ testState with
              streamSegmentRotationRequested := true
              streamRotationNextText := some "Next segment text".toList
              streamSegmentAccumulatedText := "Hello world segment".toList
            } : StreamState).streamSegmentAccumulatedText).isEmpty then
           [(m, ({ testState with
              streamSegmentRotationRequested := true
              streamRotationNextText := some "Next segment text".toList
              streamSegmentAccumulatedText := "Hello world segment".toList
            } : StreamState).streamSegmentAccumulatedText)]
         else []
       | none => []) :=
  segmentFinalized_emission
    ⟨⟨true, none, true, none⟩, true, ⟨true, none, true, none⟩⟩
    { testState with
      streamSegmentRotationRequested := true
      streamRotationNextText := some "Next segment text".toList
      streamSegmentAccumulatedText := "Hello world segment".toList }
    (by decide) (by decide)

/-- The guard and text-selection prefix of `tryDeliverFinalStream`
(lines 1231-1252), evaluated on the session state reached after
`waitForStreamIdle`: `none` when final delivery is not handled by the
streaming path (disabled, empty text, stopped backend or no message);
otherwise the text passed to `sendOrUpdateStreamMessage`. -/
def tryDeliverFinalStreamText (s : StreamState) (text : List Char) :
    Option (List Char) :=
  if !s.trueStreamingEnabled || text.isEmpty then none
  else if s.streamBackend = .stopped || !s.streamMessageId.isSome then none
  else if !s.streamSegmentAccumulatedText.isEmpty &&
      !isNonRegressiveStreamUpdate s.streamSegmentAccumulatedText text then
    some s.streamSegmentAccumulatedText
  else some text

/-- C6: with streaming enabled, a live backend and an existing message,
finalize delivers the accumulated segment text exactly when that text is
non-empty and the caller's final text would be rejected by the
Non-Regression Filter against it, and the caller's final text otherwise;
either way the delivered text never regresses from the accumulated
segment text. -/
theorem finalStream_text_choice (s : StreamState) (text : List Char)
    (henabled : s.trueStreamingEnabled = true)
    (htext : text ≠ [])
    (hbackend : s.streamBackend ≠ .stopped)
    (hmsg : s.streamMessageId.isSome = true) :
    tryDeliverFinalStreamText s text =
      some (if s.streamSegmentAccumulatedText ≠ [] ∧
          isNonRegressiveStreamUpdate s.streamSegmentAccumulatedText text = false
        then s.streamSegmentAccumulatedText else text) ∧
    ∀ d, tryDeliverFinalStreamText s text = some d →
      isNonRegressiveStreamUpdate s.streamSegmentAccumulatedText d = true := by
  have hpref : ∀ l : List Char, l.isPrefixOf l = true := by
    intro l
    induction l with
    | nil => rfl
    | cons c cs ih => simp [List.isPrefixOf, ih]
  have hself : ∀ l : List Char, isNonRegressiveStreamUpdate l l = true := by
    intro l
    unfold isNonRegressiveStreamUpdate
    cases l with
    | nil => rfl
    | cons c cs => simp [hpref]
  constructor
  · unfold tryDeliverFinalStreamText
    split_ifs <;> simp_all
  · intro d hd
    unfold tryDeliverFinalStreamText at hd
    split_ifs at hd with h1 h2 h3
    · simp only [Option.some.injEq] at hd
      subst hd
      exact hself _
    · simp only [Option.some.injEq] at hd
      subst hd
      simp only [Bool.and_eq_true, Bool.not_eq_true', not_and,
        Bool.not_eq_true] at h3
      by_cases hacc : s.streamSegmentAccumulatedText = []
      · unfold isNonRegressiveStreamUpdate
        simp [hacc]
      · simpa using h3 (by simpa [List.isEmpty_iff] using hacc)

/-- Witness for C6: a final text that regresses from the accumulated
segment text is replaced by the accumulated segment text. -/
theorem finalStream_text_choice_witness :
    tryDeliverFinalStreamText
      { testState with streamSegmentAccumulatedText := "Hello world".toList }
      "Hi".toList =
      some (if ({ testState with
            streamSegmentAccumulatedText := "Hello world".toList
          } : StreamState).streamSegmentAccumulatedText ≠ [] ∧
          isNonRegressiveStreamUpdate
            ({ testState with
              streamSegmentAccumulatedText := "Hello world".toList
            } : StreamState).streamSegmentAccumulatedText "Hi".toList = false
        then ({ testState with
            streamSegmentAccumulatedText := "Hello world".toList
          } : StreamState).streamSegmentAccumulatedText
        else "Hi".toList) :=
  (finalStream_text_choice
    { testState with streamSegmentAccumulatedText := "Hello world".toList }
    "Hi".toList (by decide) (by decide) (by decide) (by decide)).1

end StreamingController
